import Mathlib

/-!
Verification of the chunked HTML streaming pipeline of the
`cf-head-html-streaming-performance` worker.

The development shallowly embeds the three-phase streaming routine
(`src/handlers/stream-quest.ts`), the streaming pipeline and delay helpers
(`src/lib/streaming.ts`), the HTML template generators
(`src/lib/html-templates.ts`), the response header constants
(`src/lib/constants.ts`) and the non-streaming contrast handler
(`src/handlers/no-stream-quest.ts`).

Asynchronous effects are embedded by explicit outcome passing: every awaited
operation of the routine (each chunk write, the delay, the close) either
resolves or rejects with a JavaScript value, and a run of the routine is a
pure function of those outcomes.  A run returns the ordered list of
operations the routine issued against its writer and timer, together with the
settlement of the routine's own promise.
-/

namespace StreamingQuest

/-- `QuestConfig` (src/lib/types.ts): `dungeonDelayMs` is the simulated database
delay in milliseconds, `armorDownloadMs` the simulated asset download time. -/
structure QuestConfig where
  dungeonDelayMs : Int
  armorDownloadMs : Int
  deriving DecidableEq, Repr

/-- `DEFAULT_QUEST_CONFIG` (src/lib/constants.ts). -/
def DEFAULT_QUEST_CONFIG : QuestConfig :=
  { dungeonDelayMs := 2000, armorDownloadMs := 800 }

/-- A JavaScript value as thrown or used to reject a promise: either an `Error`
instance carrying a message, or some non-`Error` value. -/
inductive JSVal where
  | error (msg : String)
  | nonError
  deriving DecidableEq, Repr

/-- The settled outcome of a JavaScript promise. -/
inductive Settle (A : Type) where
  | resolved (a : A)
  | rejected (e : JSVal)
  deriving DecidableEq, Repr

/-- Platform model: `setTimeout(callback, ms)` schedules `callback` to fire exactly
once, for every `ms` (negative and zero delays are clamped by the platform, and the
callback still fires).  The model returns the settlement the fired callback produces
for the surrounding promise executor. -/
def setTimeout (callback : Unit → Settle Unit) (ms : Int) : Settle Unit :=
  let _ := ms
  callback ()

/-- `simulateDungeonDelay` (src/lib/streaming.ts):
`new Promise((resolve) => setTimeout(resolve, ms))`.  The executor only ever
schedules `resolve`; no code path calls `reject` or throws. -/
def simulateDungeonDelay (ms : Int) : Settle Unit :=
  setTimeout (fun _ => Settle.resolved ()) ms

/-- `encodeChunk` (src/lib/streaming.ts): UTF-8 encodes a string for streaming. -/
def encodeChunk (content : String) : ByteArray :=
  content.toUTF8

/-- Display-only rendering of the JavaScript expression `ms / 1000` used inside the
head template.  Exact for whole seconds (the only values the demo uses); a
non-integral quotient prints as a rational rather than a JavaScript decimal, which
no theorem below depends on. -/
def jsDiv1000 (ms : Int) : String :=
  if ms % 1000 = 0 then toString (ms / 1000) else toString ((ms : Rat) / 1000)

/-- `getLegendHTML` (src/lib/html-templates.ts): the static legend fragment. -/
def getLegendHTML : String :=
  "\n        <div class=\"legend\">\n            <div class=\"legend-item\"><span class=\"legend-icon\">🦸</span> <strong>Hero</strong> = Browser</div>\n            <div class=\"legend-item\"><span class=\"legend-icon\">🧙</span> <strong>Quest Giver</strong> = Server</div>\n            <div class=\"legend-item\"><span class=\"legend-icon\">🗺️</span> <strong>Map</strong> = &lt;head&gt; tag</div>\n            <div class=\"legend-item\"><span class=\"legend-icon\">🛡️</span> <strong>Heavy Armor</strong> = CSS/JS/Fonts</div>\n            <div class=\"legend-item\"><span class=\"legend-icon\">🏔️</span> <strong>Dungeon</strong> = Database</div>\n            <div class=\"legend-item\"><span class=\"legend-icon\">💰</span> <strong>Treasure</strong> = &lt;body&gt; data</div>\n        </div>\n    "


/-- `generateHeadChunk` (src/lib/html-templates.ts): the Phase 1 head chunk (the
Map).  Uses only `config.dungeonDelayMs` (shown as seconds in the waiting
indicator); `armorDownloadMs` does not occur in it. -/
def generateHeadChunk (config : QuestConfig) : String :=
  "<!DOCTYPE html>\n<html lang=\"en\">\n<head>\n    <meta charset=\"UTF-8\">\n    <meta name=\"viewport\" content=\"width=device-width, initial-scale=1.0\">\n    <title>⚔️ The Great Streaming Quest</title>\n    \n    <!-- \n        HEAVY ARMOR: External assets that the Hero (Browser) downloads\n        WHILE the Quest Giver (Server) is in the Dungeon (Database).\n        This parallel downloading is the KEY performance benefit!\n    -->\n    \n    <!-- Fonts (External Heavy Armor) -->\n    <link rel=\"preconnect\" href=\"https://fonts.googleapis.com\">\n    <link rel=\"preconnect\" href=\"https://fonts.gstatic.com\" crossorigin>\n    <link href=\"https://fonts.googleapis.com/css2?family=MedievalSharp&family=Fira+Code:wght@400;700&display=swap\" rel=\"stylesheet\" onload=\"if(window.QuestLogger) QuestLogger.onCssLoaded();\">\n    \n    <!-- Main Stylesheet (Heavy Armor - CSS) -->\n    <link rel=\"stylesheet\" href=\"/css/styles.css\" onload=\"if(window.QuestLogger) QuestLogger.onCssLoaded();\">\n    \n    <!-- Quest Logger (Heavy Armor - JS) -->\n    <script src=\"/js/quest.js\"></script>\n    \n    <!-- Inline fallback timer (in case JS hasn\x27t loaded yet) -->\n    <script>\n        // Fallback: Define basic logging if quest.js hasn\x27t loaded yet\n        if (!window.QuestLogger) \x7b\n            window.questStartTime = performance.now();\n            window.logToQuest = function(actor, message, type) \x7b\n                var log = document.getElementById(\x27quest-entries\x27);\n                if (!log) return;\n                var elapsed = (performance.now() - window.questStartTime).toFixed(0).padStart(4, \x27 \x27);\n                var entry = document.createElement(\x27div\x27);\n                entry.className = \x27log-entry\x27;\n                entry.innerHTML = \x27<span class=\"timestamp\">[\x27 + elapsed + \x27ms]</span> <span class=\"actor \x27 + type + \x27\">\x27 + actor + \x27:</span> <span class=\"message\">\x27 + message + \x27</span>\x27;\n                log.appendChild(entry);\n            \x7d;\n        \x7d\n    </script>\n</head>\n<body>\n    <a href=\"/\" class=\"home-btn\" title=\"Home\">🏠</a>\n    <div class=\"container\">\n        <h1>⚔️ The Great Streaming Quest 🏰</h1>\n        <p class=\"subtitle\">Demonstrating HTML &lt;head&gt; Streaming for Faster Page Loads</p>\n        \n        " ++
  (getLegendHTML) ++
  "\n        \n        <div class=\"quest-log\">\n            <h2>📜 Quest Log</h2>\n            <div id=\"quest-entries\"></div>\n            \n            <script>\n                // Log initial messages - use QuestLogger if available, fallback otherwise\n                var log = window.QuestLogger ? QuestLogger.log : window.logToQuest;\n                log(\x27🧙 Quest Giver\x27, \x27The Map (&lt;head&gt;) has been delivered! I am now descending into the Dungeon to fetch your Treasure...\x27, \x27server\x27);\n                log(\x27🦸 Hero\x27, \x27Map received! I can see the quest layout. Now downloading my Heavy Armor (CSS, Fonts, JS)...\x27, \x27hero\x27);\n            </script>\n            \n            <div id=\"loading-indicator\" class=\"loading\">\n                <div class=\"spinner\"></div>\n                <span>🧙 Quest Giver is battling Database Dragons in the Dungeon... (" ++
  (jsDiv1000 config.dungeonDelayMs) ++
  " second simulated delay)</span>\n            </div>\n        </div>\n"


/-- `generateBodyChunk` (src/lib/html-templates.ts): the Phase 3 body chunk (the
Treasure).  Mentions `config.dungeonDelayMs` once and `config.armorDownloadMs`
twice, in display text only. -/
def generateBodyChunk (config : QuestConfig) : String :=
  "\n        <script>\n            // Notify QuestLogger that treasure has arrived\n            if (window.QuestLogger) \x7b\n                QuestLogger.onTreasureReceived();\n            \x7d else \x7b\n                document.getElementById(\x27loading-indicator\x27).classList.add(\x27hidden\x27);\n                logToQuest(\x27🧙 Quest Giver\x27, \x27🏆 I have returned from the Dungeon! The Treasure is being delivered!\x27, \x27server\x27);\n            \x7d\n        </script>\n        \n        <div class=\"treasure-box\">\n            <h3>🏆 TREASURE ACQUIRED! 🏆</h3>\n            <p>The Quest Giver successfully retrieved the data from the Dungeon (Database)!</p>\n            \n            <div class=\"stats\">\n                <div class=\"stat\">\n                    <div class=\"stat-value\" id=\"total-time\">--</div>\n                    <div class=\"stat-label\">Total Quest Time</div>\n                </div>\n                <div class=\"stat\">\n                    <div class=\"stat-value\" id=\"armor-time\">--</div>\n                    <div class=\"stat-label\">Armor Equipped</div>\n                </div>\n                <div class=\"stat\">\n                    <div class=\"stat-value\" id=\"time-saved\">--</div>\n                    <div class=\"stat-label\">Time Saved by Streaming</div>\n                </div>\n            </div>\n        </div>\n        \n        <script>\n            // Display final statistics using QuestLogger or fallback\n            if (window.QuestLogger) \x7b\n                QuestLogger.showFinalStats(" ++
  (toString config.dungeonDelayMs) ++
  ");\n            \x7d else \x7b\n                var totalTime = (performance.now() - window.questStartTime).toFixed(0);\n                document.getElementById(\x27total-time\x27).textContent = totalTime + \x27ms\x27;\n                document.getElementById(\x27armor-time\x27).textContent = \x27~" ++
  (toString config.armorDownloadMs) ++
  "ms\x27;\n                document.getElementById(\x27time-saved\x27).textContent = \x27~" ++
  (toString config.armorDownloadMs) ++
  "ms\x27;\n                logToQuest(\x27🦸 Hero\x27, \x27💰 Treasure received! Quest complete in \x27 + totalTime + \x27ms!\x27, \x27hero\x27);\n            \x7d\n        </script>\n        \n        <footer class=\"footer\">\n            For demonstration and educational purposes only. \n            <a href=\"https://github.com/DavidJKTofan/cf-head-html-streaming-performance\" target=\"_blank\">View on GitHub</a>\n        </footer>\n    </div>\n</body>\n</html>\n"


/-- `generateErrorChunk` (src/lib/html-templates.ts): the substitute chunk written
when streaming fails; it still closes the HTML document. -/
def generateErrorChunk (errorMessage : String) : String :=
  "<div style=\"color:red;padding:2rem;\">⚠️ Quest Failed: " ++
  (errorMessage) ++
  "</div></body></html>"


/-- `generateFullPageHTML` (src/handlers/no-stream-quest.ts): the single complete
document the non-streaming handler returns.  `dbTime` is the measured wall-clock
duration of the awaited delay, a model parameter here. -/
def generateFullPageHTML (config : QuestConfig) (dbTime : Int) : String :=
  "<!DOCTYPE html>\n<html lang=\"en\">\n<head>\n    <meta charset=\"UTF-8\">\n    <meta name=\"viewport\" content=\"width=device-width, initial-scale=1.0\">\n    <title>❌ Traditional (No Streaming)</title>\n    \n    <!-- \n        PROBLEM: The browser only sees this NOW, after waiting " ++
  (toString dbTime) ++
  "ms!\n        It could have been downloading these assets during that time.\n    -->\n    <link rel=\"preconnect\" href=\"https://fonts.googleapis.com\">\n    <link rel=\"preconnect\" href=\"https://fonts.gstatic.com\" crossorigin>\n    <link href=\"https://fonts.googleapis.com/css2?family=MedievalSharp&family=Fira+Code:wght@400;700&display=swap\" rel=\"stylesheet\">\n    <link rel=\"stylesheet\" href=\"/css/styles.css\">\n    \n    <script>\n        const pageReceivedTime = performance.now();\n        window.noStreamState = \x7b \n            pageReceivedTime,\n            cssLoadedTime: null,\n            jsLoadedTime: null,\n            allReadyTime: null \n        \x7d;\n    </script>\n    <script src=\"/js/quest.js\"></script>\n</head>\n<body>\n    <a href=\"/\" class=\"home-btn\" title=\"Home\">🏠</a>\n    <div class=\"container\">\n        <h1 style=\"background: linear-gradient(135deg, #ff4444, #cc0000); -webkit-background-clip: text; -webkit-text-fill-color: transparent;\">❌ Traditional Approach (No Streaming)</h1>\n        <p class=\"subtitle\">The browser waited " ++
  (toString config.dungeonDelayMs) ++
  "ms before receiving ANY HTML</p>\n        \n        <div class=\"legend\" style=\"border-color: #ff4444;\">\n            <div class=\"legend-item\"><span class=\"legend-icon\">⏳</span> <strong>Server waited</strong> " ++
  (toString dbTime) ++
  "ms</div>\n            <div class=\"legend-item\"><span class=\"legend-icon\">📥</span> <strong>Then</strong> sent HTML</div>\n            <div class=\"legend-item\"><span class=\"legend-icon\">🐌</span> <strong>Then</strong> browser downloads CSS/JS</div>\n            <div class=\"legend-item\"><span class=\"legend-icon\">📊</span> <strong>Total</strong> = Sequential time</div>\n        </div>\n        \n        <div class=\"quest-log\">\n            <h2>📜 Timeline (Sequential - Slow!)</h2>\n            <div id=\"quest-entries\"></div>\n            \n            <script>\n                var log = window.QuestLogger ? QuestLogger.log : window.logToQuest;\n                if (!log) \x7b\n                    log = function(actor, msg, type) \x7b\n                        var el = document.getElementById(\x27quest-entries\x27);\n                        el.innerHTML += \x27<div class=\"log-entry\"><span class=\"actor \x27 + type + \x27\">\x27 + actor + \x27:</span> \x27 + msg + \x27</div>\x27;\n                    \x7d;\n                \x7d\n                log(\x27⏳ Server\x27, \x27I waited " ++
  (toString dbTime) ++
  "ms in the Dungeon BEFORE sending you anything...\x27, \x27server\x27);\n                log(\x27🦸 Browser\x27, \x27I just received the HTML! NOW I can start downloading CSS/JS...\x27, \x27hero\x27);\n            </script>\n        </div>\n        \n        <script>\n            // Track when CSS/JS finish loading\n            var checkCount = 0;\n            function checkAssetsLoaded() \x7b\n                checkCount++;\n                var state = window.noStreamState;\n                \n                // Check if fonts are loaded (proxy for CSS)\n                if (!state.cssLoadedTime && document.fonts && document.fonts.status === \x27loaded\x27) \x7b\n                    state.cssLoadedTime = performance.now();\n                \x7d\n                \n                // Check if our QuestLogger is ready (proxy for JS)\n                if (!state.jsLoadedTime && window.QuestLogger && window.QuestLogger.state) \x7b\n                    state.jsLoadedTime = performance.now();\n                \x7d\n                \n                if (state.cssLoadedTime && state.jsLoadedTime) \x7b\n                    state.allReadyTime = performance.now();\n                    showFinalStats();\n                \x7d else if (checkCount < 100) \x7b\n                    setTimeout(checkAssetsLoaded, 50);\n                \x7d else \x7b\n                    // Fallback after 5 seconds\n                    state.allReadyTime = performance.now();\n                    showFinalStats();\n                \x7d\n            \x7d\n            \n            function showFinalStats() \x7b\n                var state = window.noStreamState;\n                var totalTime = state.allReadyTime;\n                var assetTime = totalTime - state.pageReceivedTime;\n                \n                var log = window.QuestLogger ? QuestLogger.log : window.logToQuest;\n                log(\x27🦸 Browser\x27, \x27🛡️ CSS/JS finally loaded after \x27 + assetTime.toFixed(0) + \x27ms (started AFTER server delay)\x27, \x27hero\x27);\n                log(\x27📊 System\x27, \x27<strong style=\"color:#ff4444\">TOTAL TIME: ~\x27 + (" ++
  (toString dbTime) ++
  " + assetTime).toFixed(0) + \x27ms</strong> (" ++
  (toString dbTime) ++
  "ms server + \x27 + assetTime.toFixed(0) + \x27ms assets = SEQUENTIAL)\x27, \x27system\x27);\n                \n                // Show comparison box\n                document.getElementById(\x27comparison-stats\x27).classList.remove(\x27hidden\x27);\n                document.getElementById(\x27server-wait\x27).textContent = \x27" ++
  (toString dbTime) ++
  "ms\x27;\n                document.getElementById(\x27asset-download\x27).textContent = assetTime.toFixed(0) + \x27ms\x27;\n                document.getElementById(\x27total-sequential\x27).textContent = (" ++
  (toString dbTime) ++
  " + assetTime).toFixed(0) + \x27ms\x27;\n            \x7d\n            \n            setTimeout(checkAssetsLoaded, 100);\n        </script>\n        \n        <div id=\"comparison-stats\" class=\"treasure-box hidden\" style=\"border-color: #ff4444; background: linear-gradient(135deg, #2d0000, #3d0000);\">\n            <h3 style=\"color: #ff4444;\">❌ Sequential Loading (Slow)</h3>\n            <p style=\"color: #d49494;\">Assets downloaded AFTER server finished - time wasted!</p>\n            \n            <div class=\"stats\">\n                <div class=\"stat\">\n                    <div class=\"stat-value\" id=\"server-wait\" style=\"color: #ff4444;\">--</div>\n                    <div class=\"stat-label\">Server Wait</div>\n                </div>\n                <div class=\"stat\">\n                    <div class=\"stat-value\" id=\"asset-download\" style=\"color: #ff4444;\">--</div>\n                    <div class=\"stat-label\">Asset Download</div>\n                </div>\n                <div class=\"stat\">\n                    <div class=\"stat-value\" id=\"total-sequential\" style=\"color: #ff4444;\">--</div>\n                    <div class=\"stat-label\">Total (Sequential)</div>\n                </div>\n            </div>\n            \n            <p style=\"margin-top: 1rem; color: #888;\">\n                <a href=\"/quest\" style=\"color: #3fb950;\">→ Try the Streaming version</a> to see the difference!\n            </p>\n        </div>\n        \n        <footer class=\"footer\">\n            For demonstration and educational purposes only. \n            <a href=\"https://github.com/DavidJKTofan/cf-head-html-streaming-performance\" target=\"_blank\">View on GitHub</a>\n        </footer>\n    </div>\n</body>\n</html>"


/-- The call site that produced a chunk write in `streamQuestContent`. -/
inductive ChunkKind where
  | head
  | body
  | error
  deriving DecidableEq, Repr

/-- One operation issued by the streaming routine against its writer or timer, in
issue order.  A write records its call site and the string whose UTF-8 encoding
(`encodeChunk`) was passed to `writer.write`; whether an issued operation resolves
or rejects is given separately by the fault environment. -/
inductive Op where
  | write (kind : ChunkKind) (chunk : String)
  | delay (ms : Int)
  | close
  deriving DecidableEq, Repr

/-- Recognizes the close operation in a trace. -/
def isClose : Op → Bool
  | Op.close => true
  | _ => false

/-- Recognizes an error-chunk write in a trace. -/
def isErrorWrite : Op → Bool
  | Op.write ChunkKind.error _ => true
  | _ => false

/-- The timing-relevant shape of an operation: the chunk payload text is erased
while the call site and the awaited delay duration are kept. -/
inductive OpShape where
  | write (kind : ChunkKind)
  | delay (ms : Int)
  | close
  deriving DecidableEq, Repr

/-- Erases a chunk write to its shape. -/
def opShape : Op → OpShape
  | Op.write kind _ => OpShape.write kind
  | Op.delay ms => OpShape.delay ms
  | Op.close => OpShape.close

/-- Fault-injection environment for one run of `streamQuestContent`: the outcome of
each awaited operation (`none` = its promise resolves, `some e` = it rejects with
`e`).  The real delay never rejects (see `simulateDungeonDelay`), but the failure
scenarios quantify over a rejecting delay, so its outcome is injectable too. -/
structure StreamEnv where
  headWrite : Option JSVal
  delay : Option JSVal
  bodyWrite : Option JSVal
  errWrite : Option JSVal
  close : Option JSVal
  deriving DecidableEq, Repr

/-- The message extraction of the catch block in `streamQuestContent`
(src/handlers/stream-quest.ts):
`error instanceof Error ? error.message : 'Unknown error'`. -/
def errMessage : JSVal → String
  | JSVal.error msg => msg
  | JSVal.nonError => "Unknown error"

/-- The `finally` block of `streamQuestContent` (src/handlers/stream-quest.ts):
`await writer.close()` runs on every exit path.  If the close rejects, its
rejection supersedes any pending outcome of the try/catch (JavaScript `finally`
semantics); otherwise the pending outcome stands. -/
def streamFinally (env : StreamEnv) (ops : List Op) (pending : Option JSVal) :
    List Op × Option JSVal :=
  (ops ++ [Op.close],
   match env.close with
   | some e => some e
   | none => pending)

/-- The `catch` block of `streamQuestContent`: writes an error chunk built from the
caught value's message.  If that write itself rejects, its rejection is the pending
outcome when the `finally` block runs; otherwise the catch block recovers and the
pending outcome is resolution. -/
def streamCatch (env : StreamEnv) (ops : List Op) (e : JSVal) :
    List Op × Option JSVal :=
  streamFinally env
    (ops ++ [Op.write ChunkKind.error (generateErrorChunk (errMessage e))])
    env.errWrite

/-- `streamQuestContent` (src/handlers/stream-quest.ts): the 3-phase streaming
routine.  Phase 1 writes the head chunk, Phase 2 awaits the dungeon delay, Phase 3
writes the body chunk; any rejection in that guarded region transfers to the catch
block, and the finally block closes the writer.  Returns the ordered operations
issued against the writer and timer, and the settlement of the routine's promise
(`none` = resolved, `some e` = rejected with `e`), as a function of the injected
outcomes `env`. -/
def streamQuestContent (env : StreamEnv) (config : QuestConfig) :
    List Op × Option JSVal :=
  let ops := [Op.write ChunkKind.head (generateHeadChunk config)]
  match env.headWrite with
  | some e => streamCatch env ops e
  | none =>
    let ops := ops ++ [Op.delay config.dungeonDelayMs]
    match env.delay with
    | some e => streamCatch env ops e
    | none =>
      let ops := ops ++ [Op.write ChunkKind.body (generateBodyChunk config)]
      match env.bodyWrite with
      | some e => streamCatch env ops e
      | none => streamFinally env ops none

/-- The status and headers of a constructed `Response`.  A `new Response(body,
init)` whose `init` carries no `status` has status 200 (Fetch standard default). -/
structure ResponseMeta where
  status : Nat
  headers : List (String × String)
  deriving DecidableEq, Repr

/-- `RESPONSE_HEADERS` (src/lib/constants.ts). -/
def RESPONSE_HEADERS : List (String × String) :=
  [("Content-Type", "text/html; charset=utf-8"),
   ("Transfer-Encoding", "chunked"),
   ("X-Content-Type-Options", "nosniff"),
   ("Cache-Control", "no-store")]

/-- `handleStreamQuest` (src/handlers/stream-quest.ts): creates the pipeline,
schedules `streamQuestContent` via `ctx.waitUntil` without awaiting it, and returns
`new Response(readable, { headers: RESPONSE_HEADERS })` immediately.  The inbound
request and worker bindings do not influence the response metadata, so the model
takes only the fault environment of the scheduled task and the config; the result
pairs the response metadata with the scheduled task's run. -/
def handleStreamQuest (env : StreamEnv) (config : QuestConfig) :
    ResponseMeta × (List Op × Option JSVal) :=
  ({ status := 200, headers := RESPONSE_HEADERS }, streamQuestContent env config)

/-- The inline header literal of `handleNoStreamQuest`
(src/handlers/no-stream-quest.ts). -/
def noStreamHeaders : List (String × String) :=
  [("Content-Type", "text/html; charset=utf-8"),
   ("X-Content-Type-Options", "nosniff"),
   ("Cache-Control", "no-store")]

/-- `handleNoStreamQuest` (src/handlers/no-stream-quest.ts): awaits
`simulateDungeonDelay(config.dungeonDelayMs)`, measures the elapsed wall time
`dbTime` (a model parameter standing for the `Date.now()` difference), and only
then constructs `new Response(generateFullPageHTML(config, dbTime), ...)` with the
inline headers.  The first component lists the operations issued before the
response is constructed. -/
def handleNoStreamQuest (config : QuestConfig) (dbTime : Int) :
    List Op × ResponseMeta × String :=
  ([Op.delay config.dungeonDelayMs],
   ({ status := 200, headers := noStreamHeaders }, generateFullPageHTML config dbTime))

/-- The state of the writable side of the platform `TransformStream`. -/
inductive StreamState where
  | writable
  | closed
  | errored
  deriving DecidableEq, Repr

/-- Platform model (WHATWG Streams standard, `WritableStreamClose`):
`writer.close()` on a writable stream resolves and moves the stream to the closed
state; on an already closed or errored stream it returns a promise rejected with a
`TypeError`. -/
def rawWriterClose : StreamState → StreamState × Option JSVal
  | StreamState.writable => (StreamState.closed, none)
  | StreamState.closed => (StreamState.closed, some (JSVal.error "TypeError"))
  | StreamState.errored => (StreamState.errored, some (JSVal.error "TypeError"))

/-- The `close` of the writer returned by `createStreamingPipeline`
(src/lib/streaming.ts): `async close() ... await rawWriter.close()` — a plain
delegation to the raw writer with no catch, so any rejection propagates. -/
def createStreamingPipelineClose (s : StreamState) : StreamState × Option JSVal :=
  rawWriterClose s

/-- The run in which every awaited operation resolves. -/
def envAllOk : StreamEnv :=
  { headWrite := none, delay := none, bodyWrite := none, errWrite := none,
    close := none }

/-- The run in which the head-chunk write rejects with `Error("boom")` and every
other awaited operation resolves. -/
def envHeadFail : StreamEnv :=
  { envAllOk with headWrite := some (JSVal.error "boom") }

/-- The run in which only the close rejects, with `Error("close boom")`. -/
def envCloseFail : StreamEnv :=
  { envAllOk with close := some (JSVal.error "close boom") }

/-- C3: on every execution of the streaming routine — success, rejected delay, or
rejected body-chunk write (and also a rejected head or error-chunk write) — the
writer's close operation is issued exactly once, and it is the last operation of
the run; no execution path skips the final close. -/
theorem c3_close_exactly_once_and_last (env : StreamEnv) (config : QuestConfig) :
    List.countP isClose (streamQuestContent env config).1 = 1 ∧
    (streamQuestContent env config).1.getLast? = some Op.close := by
  rcases env with ⟨hw, d, bw, ew, cl⟩
  cases hw <;> cases d <;> cases bw <;> exact ⟨rfl, rfl⟩

/-- C4: in every run, the head-chunk write is the very first operation issued (so
no body or error chunk write occurs before it), and the close is the final
operation with no close occurring among the intermediate operations (so the close
never occurs before the last content-chunk write). -/
theorem c4_write_ordering (env : StreamEnv) (config : QuestConfig) :
    ∃ mid : List Op,
      (streamQuestContent env config).1 =
        Op.write ChunkKind.head (generateHeadChunk config) :: (mid ++ [Op.close]) ∧
      mid.all (fun op => !isClose op) = true := by
  rcases env with ⟨hw, d, bw, ew, cl⟩
  cases hw with
  | some e =>
    exact ⟨[Op.write ChunkKind.error (generateErrorChunk (errMessage e))], rfl, rfl⟩
  | none =>
    cases d with
    | some e =>
      exact ⟨[Op.delay config.dungeonDelayMs,
              Op.write ChunkKind.error (generateErrorChunk (errMessage e))], rfl, rfl⟩
    | none =>
      cases bw with
      | some e =>
        exact ⟨[Op.delay config.dungeonDelayMs,
                Op.write ChunkKind.body (generateBodyChunk config),
                Op.write ChunkKind.error (generateErrorChunk (errMessage e))], rfl, rfl⟩
      | none =>
        exact ⟨[Op.delay config.dungeonDelayMs,
                Op.write ChunkKind.body (generateBodyChunk config)], rfl, rfl⟩

/-- C1 counterexample: with a rejecting head write and an otherwise healthy
channel, the routine does write an error chunk to the channel after the failed
head write (the error-chunk write is issued and, since `errWrite` resolves,
succeeds), refuting the claim that nothing further is surfaced. -/
theorem c1_counterexample :
    Op.write ChunkKind.error (generateErrorChunk "boom") ∈
      (streamQuestContent envHeadFail DEFAULT_QUEST_CONFIG).1 ∧
    envHeadFail.errWrite = none :=
  ⟨List.Mem.tail _ (List.Mem.head _), rfl⟩

/-- C1 (amended): if the head-chunk write throws, the routine issues exactly the
head write, one error-chunk write carrying the caught message, and the close — in
particular no body chunk is ever written after the failed head write, and the
channel is still closed. -/
theorem c1_head_failure_path (env : StreamEnv) (config : QuestConfig) (e : JSVal)
    (h : env.headWrite = some e) :
    (streamQuestContent env config).1 =
      [Op.write ChunkKind.head (generateHeadChunk config),
       Op.write ChunkKind.error (generateErrorChunk (errMessage e)),
       Op.close] ∧
    ∀ s : String, Op.write ChunkKind.body s ∉ (streamQuestContent env config).1 := by
  have ht : (streamQuestContent env config).1 =
      [Op.write ChunkKind.head (generateHeadChunk config),
       Op.write ChunkKind.error (generateErrorChunk (errMessage e)),
       Op.close] := by
    simp [streamQuestContent, streamCatch, streamFinally, h]
  refine ⟨ht, fun s hs => ?_⟩
  rw [ht] at hs
  simp at hs

/-- C1 witness: the amended head-failure path evaluated at the concrete run
`envHeadFail` with the default config. -/
theorem c1_witness :
    (streamQuestContent envHeadFail DEFAULT_QUEST_CONFIG).1 =
      [Op.write ChunkKind.head (generateHeadChunk DEFAULT_QUEST_CONFIG),
       Op.write ChunkKind.error (generateErrorChunk (errMessage (JSVal.error "boom"))),
       Op.close] ∧
    ∀ s : String,
      Op.write ChunkKind.body s ∉ (streamQuestContent envHeadFail DEFAULT_QUEST_CONFIG).1 :=
  c1_head_failure_path envHeadFail DEFAULT_QUEST_CONFIG (JSVal.error "boom") rfl

/-- C2 counterexample: when only the close operation rejects, the promise returned
by the streaming routine rejects with that error instead of resolving, refuting
the claim that every failure is handled locally. -/
theorem c2_counterexample :
    (streamQuestContent envCloseFail DEFAULT_QUEST_CONFIG).2 =
      some (JSVal.error "close boom") :=
  rfl

/-- C2 (amended): failures of the head write, the delay and the body write are
always handled locally — whenever the error-chunk write and the close operation
themselves resolve, the routine's promise resolves for every config and every
head/delay/body outcome.  (A rejection of the error-chunk write or of the close
itself, by contrast, propagates out of the routine.) -/
theorem c2_resolves_when_recovery_succeeds (env : StreamEnv) (config : QuestConfig)
    (he : env.errWrite = none) (hc : env.close = none) :
    (streamQuestContent env config).2 = none := by
  rcases env with ⟨hw, d, bw, ew, cl⟩
  simp only at he hc
  subst he hc
  cases hw <;> cases d <;> cases bw <;> rfl

/-- C2 witness: the amended statement evaluated at the all-resolving run with the
default config. -/
theorem c2_witness :
    (streamQuestContent envAllOk DEFAULT_QUEST_CONFIG).2 = none :=
  c2_resolves_when_recovery_succeeds envAllOk DEFAULT_QUEST_CONFIG rfl rfl

/-- C5 counterexample: a first close of the pipeline writer on a writable stream
resolves, but calling close a second time rejects (with a TypeError, per the
platform writable-stream semantics the wrapper delegates to), refuting the claim
that a second close does not reject. -/
theorem c5_counterexample :
    (createStreamingPipelineClose StreamState.writable).2 = none ∧
    (createStreamingPipelineClose
        (createStreamingPipelineClose StreamState.writable).1).2 =
      some (JSVal.error "TypeError") :=
  ⟨rfl, rfl⟩

/-- C5 (amended): close is not idempotent-safe — from every stream state, invoking
the pipeline writer's close a second time after a prior close yields a rejected
promise, because the wrapper delegates to the raw writer without catching. -/
theorem c5_second_close_always_rejects (s : StreamState) :
    (createStreamingPipelineClose (createStreamingPipelineClose s).1).2 ≠ none := by
  cases s <;> decide

/-- C6: for every config and every behaviour of the scheduled streaming task, the
streaming handler's response has status 200 and carries the Content-Type,
X-Content-Type-Options and Cache-Control headers of the contract; the response
metadata does not depend on the task's failures at all, so no failure inside the
phased writer changes the HTTP status. -/
theorem c6_response_contract (env : StreamEnv) (config : QuestConfig) :
    (handleStreamQuest env config).1.status = 200 ∧
    ("Content-Type", "text/html; charset=utf-8") ∈ (handleStreamQuest env config).1.headers ∧
    ("X-Content-Type-Options", "nosniff") ∈ (handleStreamQuest env config).1.headers ∧
    ("Cache-Control", "no-store") ∈ (handleStreamQuest env config).1.headers ∧
    ∀ env2 : StreamEnv, (handleStreamQuest env2 config).1 = (handleStreamQuest env config).1 := by
  refine ⟨rfl, ?_, ?_, ?_, fun env2 => rfl⟩
  · show ("Content-Type", "text/html; charset=utf-8") ∈ RESPONSE_HEADERS
    decide
  · show ("X-Content-Type-Options", "nosniff") ∈ RESPONSE_HEADERS
    decide
  · show ("Cache-Control", "no-store") ∈ RESPONSE_HEADERS
    decide

/-- The shape of a run of `streamQuestContent` depends only on the injected
outcomes and on `dungeonDelayMs`: the four possible operation sequences with the
payload text erased. -/
def shapeOfRun (env : StreamEnv) (ms : Int) : List OpShape :=
  match env.headWrite with
  | some _ =>
    [OpShape.write ChunkKind.head, OpShape.write ChunkKind.error, OpShape.close]
  | none =>
    match env.delay with
    | some _ =>
      [OpShape.write ChunkKind.head, OpShape.delay ms,
       OpShape.write ChunkKind.error, OpShape.close]
    | none =>
      match env.bodyWrite with
      | some _ =>
        [OpShape.write ChunkKind.head, OpShape.delay ms,
         OpShape.write ChunkKind.body, OpShape.write ChunkKind.error, OpShape.close]
      | none =>
        [OpShape.write ChunkKind.head, OpShape.delay ms,
         OpShape.write ChunkKind.body, OpShape.close]

/-- The settlement of a run of `streamQuestContent` as a function of the injected
outcomes alone: a close rejection supersedes everything; otherwise the guarded
region's failure (if any) was recovered by the error-chunk write, whose own
outcome is what remains pending. -/
def resultOfRun (env : StreamEnv) : Option JSVal :=
  match env.close with
  | some e => some e
  | none =>
    match env.headWrite, env.delay, env.bodyWrite with
    | none, none, none => none
    | _, _, _ => env.errWrite

/-- A run's settlement is `resultOfRun`, independent of the config. -/
theorem snd_streamQuestContent (env : StreamEnv) (config : QuestConfig) :
    (streamQuestContent env config).2 = resultOfRun env := by
  rcases env with ⟨hw, d, bw, ew, cl⟩
  cases hw <;> cases d <;> cases bw <;> cases ew <;> cases cl <;> rfl

/-- Erasing the payload text from a run's operations yields `shapeOfRun`, so the
shape depends on the config only through `dungeonDelayMs`. -/
theorem map_opShape_streamQuestContent (env : StreamEnv) (config : QuestConfig) :
    (streamQuestContent env config).1.map opShape =
      shapeOfRun env config.dungeonDelayMs := by
  rcases env with ⟨hw, d, bw, ew, cl⟩
  cases hw <;> cases d <;> cases bw <;> rfl

/-- C7: `armorDownloadMs` never influences timing control — for every run
environment and every two configs that agree on `dungeonDelayMs`, the routine
issues operation sequences of identical shape (same call sites, same awaited delay
duration, payload text erased) and its promise settles identically; the two runs
can differ only in the display text of the generated HTML chunks. -/
theorem c7_armor_ms_display_only (env : StreamEnv) (c1 c2 : QuestConfig)
    (h : c1.dungeonDelayMs = c2.dungeonDelayMs) :
    (streamQuestContent env c1).1.map opShape = (streamQuestContent env c2).1.map opShape ∧
    (streamQuestContent env c1).2 = (streamQuestContent env c2).2 := by
  refine ⟨?_, ?_⟩
  · rw [map_opShape_streamQuestContent, map_opShape_streamQuestContent, h]
  · rw [snd_streamQuestContent, snd_streamQuestContent]

/-- C7 witness: two configs sharing `dungeonDelayMs = 2000` but with armor times
800 and 5 produce identically shaped runs under the all-resolving environment. -/
theorem c7_witness :
    (streamQuestContent envAllOk { dungeonDelayMs := 2000, armorDownloadMs := 800 }).1.map opShape =
      (streamQuestContent envAllOk { dungeonDelayMs := 2000, armorDownloadMs := 5 }).1.map opShape ∧
    (streamQuestContent envAllOk { dungeonDelayMs := 2000, armorDownloadMs := 800 }).2 =
      (streamQuestContent envAllOk { dungeonDelayMs := 2000, armorDownloadMs := 5 }).2 :=
  c7_armor_ms_display_only envAllOk
    { dungeonDelayMs := 2000, armorDownloadMs := 800 }
    { dungeonDelayMs := 2000, armorDownloadMs := 5 } rfl

/-- C8: the non-streaming contrast handler awaits the full `dungeonDelayMs` delay
(the only operation issued before the response is constructed), then returns a
single complete HTML document as one non-chunked body, with status 200, exactly
the Content-Type, X-Content-Type-Options and Cache-Control headers, and no
Transfer-Encoding header. -/
theorem c8_no_stream_contract (config : QuestConfig) (dbTime : Int) :
    (handleNoStreamQuest config dbTime).1 = [Op.delay config.dungeonDelayMs] ∧
    (handleNoStreamQuest config dbTime).2.1.status = 200 ∧
    (handleNoStreamQuest config dbTime).2.1.headers =
      [("Content-Type", "text/html; charset=utf-8"),
       ("X-Content-Type-Options", "nosniff"),
       ("Cache-Control", "no-store")] ∧
    "Transfer-Encoding" ∉ ((handleNoStreamQuest config dbTime).2.1.headers.map Prod.fst) ∧
    (handleNoStreamQuest config dbTime).2.2 = generateFullPageHTML config dbTime := by
  refine ⟨rfl, rfl, rfl, ?_, rfl⟩
  show "Transfer-Encoding" ∉ noStreamHeaders.map Prod.fst
  decide

/-- C9: the streaming handler's response carries the fourth header
Transfer-Encoding: chunked in addition to the three contract headers, while the
non-streaming handler's response carries no Transfer-Encoding header at all. -/
theorem c9_transfer_encoding_difference (env : StreamEnv) (config : QuestConfig)
    (dbTime : Int) :
    ("Transfer-Encoding", "chunked") ∈ (handleStreamQuest env config).1.headers ∧
    "Transfer-Encoding" ∉ ((handleNoStreamQuest config dbTime).2.1.headers.map Prod.fst) := by
  refine ⟨?_, ?_⟩
  · show ("Transfer-Encoding", "chunked") ∈ RESPONSE_HEADERS
    decide
  · show "Transfer-Encoding" ∉ noStreamHeaders.map Prod.fst
    decide

/-- C10: `simulateDungeonDelay ms` always resolves and never rejects, for every
`ms` including zero and negative values; consequently, whenever the delay outcome
is the real delay's (resolution), the error path can only be entered by a chunk
write failure — an error chunk in the trace implies the head write or the body
write rejected. -/
theorem c10_delay_never_rejects :
    (∀ ms : Int, simulateDungeonDelay ms = Settle.resolved ()) ∧
    (∀ env : StreamEnv, ∀ config : QuestConfig, env.delay = none →
      (streamQuestContent env config).1.any isErrorWrite = true →
      env.headWrite ≠ none ∨ env.bodyWrite ≠ none) := by
  constructor
  · intro ms
    rfl
  · intro env config hdelay herr
    rcases env with ⟨hw, d, bw, ew, cl⟩
    simp only at hdelay herr ⊢
    subst hdelay
    cases hw with
    | some e => exact Or.inl (by simp)
    | none =>
      cases bw with
      | some e => exact Or.inr (by simp)
      | none =>
        simp [streamQuestContent, streamFinally, isErrorWrite] at herr

/-- C10 witness: the delay resolves at a negative duration, and in the concrete
head-failure run (whose trace contains an error-chunk write and whose delay
resolves) a chunk write indeed rejected. -/
theorem c10_witness :
    simulateDungeonDelay (-5) = Settle.resolved () ∧
    (envHeadFail.headWrite ≠ none ∨ envHeadFail.bodyWrite ≠ none) :=
  ⟨c10_delay_never_rejects.1 (-5),
   c10_delay_never_rejects.2 envHeadFail DEFAULT_QUEST_CONFIG rfl rfl⟩

end StreamingQuest
